import Mathlib

/-!
Verification development for the WEBGUIDE_IEEE browser extension.

The JavaScript source is shallowly embedded: pure functions become Lean
functions over explicit data, host DOM reads (computed style, bounding
boxes, query results) become explicit data fields or function parameters,
JS numbers become an explicit NaN-or-rational type, and JS strings are
processed through `List Char` so every operation is kernel-computable.
-/

/- ## JS number and value model

JS numbers relevant to this code are either NaN or a finite decimal;
we model them as `nan` or a rational value.  `toNumber` models the host
`Number(...)` coercion on the fragment exercised by the source
(undefined, null, booleans, numbers, and plain decimal strings). -/

inductive JSNum where
  | nan : JSNum
  | val : ℚ → JSNum
deriving DecidableEq

inductive JSValue where
  | undef : JSValue
  | jnull : JSValue
  | jbool : Bool → JSValue
  | jnum : JSNum → JSValue
  | jstr : String → JSValue
deriving DecidableEq

def isWs (c : Char) : Bool :=
  c = ' ' || c = '\t' || c = '\n' || c = '\r'

def trimChars (cs : List Char) : List Char :=
  ((cs.dropWhile isWs).reverse.dropWhile isWs).reverse

def trimJS (s : String) : String :=
  String.mk (trimChars s.data)

def digitsVal (cs : List Char) : ℕ :=
  cs.foldl (fun acc c => 10 * acc + (c.toNat - '0'.toNat)) 0

/-- Parse an unsigned decimal literal `digits [ '.' digits ]` requiring at
least one digit in total and consuming the whole input; models the host
`Number(...)` string grammar on the plain-decimal fragment used here. -/
def parseDecimal (cs : List Char) : Option ℚ :=
  let intPart := cs.takeWhile Char.isDigit
  let rest := cs.dropWhile Char.isDigit
  match rest with
  | [] => if intPart = [] then none else some (digitsVal intPart)
  | '.' :: frac =>
      if frac.all Char.isDigit ∧ (intPart ≠ [] ∨ frac ≠ []) then
        some ((digitsVal intPart : ℚ) + (digitsVal frac : ℚ) / ((10 : ℚ) ^ frac.length))
      else none
  | _ => none

def strToNum (s : String) : JSNum :=
  let t := trimChars s.data
  match t with
  | [] => JSNum.val 0
  | '+' :: rest => match parseDecimal rest with
      | some q => JSNum.val q
      | none => JSNum.nan
  | '-' :: rest => match parseDecimal rest with
      | some q => JSNum.val (-q)
      | none => JSNum.nan
  | _ => match parseDecimal t with
      | some q => JSNum.val q
      | none => JSNum.nan

def toNumber : JSValue → JSNum
  | JSValue.undef => JSNum.nan
  | JSValue.jnull => JSNum.val 0
  | JSValue.jbool b => JSNum.val (if b then 1 else 0)
  | JSValue.jnum n => n
  | JSValue.jstr s => strToNum s

/-- `Number.isInteger` on the model. -/
def numIsInteger : JSNum → Bool
  | JSNum.nan => false
  | JSNum.val q => q.den = 1

/-- JS `a || b` on strings, with the empty string as the falsy case (the
source only ever reaches this with `null` or string operands, and `null`
and `""` behave identically under truthiness and the string uses here). -/
def jsOr (a b : String) : String :=
  if a = "" then b else a

/- ## Data model (§3 of the spec)

An Interactive Element Descriptor as produced by
`PageExtractor.getInteractiveElements` (src/unnamed/part_000:1371-1397).
Nullable string fields conflate `null` with `""` (identical truthiness
and usage in the source). -/

structure InteractiveElement where
  tag : String
  type : String
  text : String
  ariaLabel : String
  idAttr : String
  className : String
  href : String
  selector : String
  posTop : Int
  posLeft : Int
deriving DecidableEq

structure NavLink where
  text : String
  href : String
  selector : String
deriving DecidableEq

structure Heading where
  level : ℕ
  text : String
deriving DecidableEq

structure PageData where
  url : String
  title : String
  textContent : String
  interactiveElements : List InteractiveElement
  navigationLinks : List NavLink
  headings : List Heading
deriving DecidableEq

structure ResolvedTarget where
  selector : String
  description : String
deriving DecidableEq

/-- The JSON payload of a `[HIGHLIGHT_ELEMENT]` block after `JSON.parse`;
fields absent from the parsed object are `JSValue.undef`. -/
structure HighlightData where
  elementIndex : JSValue
  selector : JSValue
  description : JSValue
deriving DecidableEq

/- ## Page Model Extractor: interactive-element capture (C2)

`document.querySelectorAll(selectors)` and `isVisible` read the live DOM;
we model each query match as its visibility verdict together with the
descriptor the loop body would push for it.  The loop
(src/unnamed/part_000:1375-1394) skips matches with query index ≥ 50 and
invisible matches. -/

structure PageElem where
  visible : Bool
  desc : InteractiveElement
deriving DecidableEq

def collectInteractive : ℕ → List PageElem → List InteractiveElement
  | _, [] => []
  | i, e :: rest =>
      if 50 ≤ i then collectInteractive (i + 1) rest
      else if e.visible then e.desc :: collectInteractive (i + 1) rest
      else collectInteractive (i + 1) rest

def getInteractiveElements (found : List PageElem) : List InteractiveElement :=
  collectInteractive 0 found

/-- Spec-worded capture (for the refinement comparison of C2): keep every
visible match "until 50 visible matches have been collected". -/
def specCapturedInteractive (found : List PageElem) : List InteractiveElement :=
  (((found.filter (fun e => e.visible)).map (fun e => e.desc)).take 50)

def defaultElem : InteractiveElement :=
  { tag := "button", type := "", text := "Go", ariaLabel := "", idAttr := ""
    className := "", href := "", selector := "#go", posTop := 0, posLeft := 0 }

/- ## String helpers (JS string/regex operations on `List Char`) -/

def isPrefixB : List Char → List Char → Bool
  | [], _ => true
  | _ :: _, [] => false
  | a :: as, b :: bs => a = b && isPrefixB as bs

/-- Index of the first occurrence of `pat` in `s` (JS `indexOf` / first
regex match position). -/
def firstIdx (pat : List Char) : List Char → Option ℕ
  | [] => if isPrefixB pat [] then some 0 else none
  | c :: rest =>
      if isPrefixB pat (c :: rest) then some 0
      else (firstIdx pat rest).map (fun n => n + 1)

/-- JS `String.prototype.includes`. -/
def containsSub (pat s : List Char) : Bool :=
  (firstIdx pat s).isSome

def lowerChars (cs : List Char) : List Char :=
  cs.map Char.toLower

/-- Split on whitespace and drop empty pieces: JS
`s.split(\s+).filter(Boolean)`. -/
def wsTokensAux : List Char → List Char → List (List Char)
  | [], acc => if acc = [] then [] else [acc.reverse]
  | c :: rest, acc =>
      if isWs c then
        if acc = [] then wsTokensAux rest []
        else acc.reverse :: wsTokensAux rest []
      else wsTokensAux rest (c :: acc)

def wsTokens (cs : List Char) : List (List Char) :=
  wsTokensAux cs []

/-- First lazy match of `openT (.*?) closeT` with dotall, as a
(before, content, after) decomposition.  A JS regex scans start positions
left to right, so the match hangs off the first `openT` occurrence; lazy
`.*?` takes the earliest `closeT` after it.  (If the first `openT` has no
later `closeT` then no later `openT` has one either, so returning `none`
agrees with the JS engine.) -/
def firstBlock (openT closeT s : List Char) : Option (List Char × List Char × List Char) :=
  match firstIdx openT s with
  | none => none
  | some i =>
      let tailPart := s.drop (i + openT.length)
      match firstIdx closeT tailPart with
      | none => none
      | some j =>
          some (s.take i, tailPart.take j, tailPart.drop (j + closeT.length))

def clarifyMatch (s : String) : Option (String × String × String) :=
  (firstBlock "[CLARIFY]".data "[/CLARIFY]".data s.data).map
    (fun x => (String.mk x.1, String.mk x.2.1, String.mk x.2.2))

def highlightMatch (s : String) : Option (String × String × String) :=
  (firstBlock "[HIGHLIGHT_ELEMENT]".data "[/HIGHLIGHT_ELEMENT]".data s.data).map
    (fun x => (String.mk x.1, String.mk x.2.1, String.mk x.2.2))

/- ## Element Resolver (src/unnamed/part_000:1108-1134, 1165-1194) -/

/-- The `description` local after its initial assignment
(`typeof highlightData?.description === 'string' ? ... .trim() : ''`,
modelled with the empty string for the falsy/absent cases). -/
def rhtDescription0 (highlightData : HighlightData) : String :=
  match highlightData.description with
  | JSValue.jstr s => trimJS s
  | _ => ""

/-- The primary (index) path: the descriptor selected when
`Number.isInteger(parsedIndex) && parsedIndex >= 0 && parsedIndex < len`. -/
def rhtIndexHit (highlightData : HighlightData) (pageData : PageData) :
    Option InteractiveElement :=
  match toNumber highlightData.elementIndex with
  | JSNum.nan => none
  | JSNum.val q =>
      if q.den = 1 ∧ 0 ≤ q ∧ q < (pageData.interactiveElements.length : ℚ) then
        pageData.interactiveElements[q.num.toNat]?
      else none

/-- The `selector` local after the index path (null modelled as `""`,
identical truthiness). -/
def rhtSelector1 (highlightData : HighlightData) (pageData : PageData) : String :=
  match rhtIndexHit highlightData pageData with
  | some recommendedElement => recommendedElement.selector
  | none => ""

/-- The `description` local after the index path. -/
def rhtDescription1 (highlightData : HighlightData) (pageData : PageData) : String :=
  match rhtIndexHit highlightData pageData with
  | some recommendedElement =>
      if rhtDescription0 highlightData = "" then
        jsOr recommendedElement.text (jsOr recommendedElement.ariaLabel "Recommended action")
      else rhtDescription0 highlightData
  | none => rhtDescription0 highlightData

/-- The `selector` local after the secondary (explicit selector) path. -/
def rhtSelector2 (highlightData : HighlightData) (pageData : PageData) : String :=
  if rhtSelector1 highlightData pageData = "" then
    match highlightData.selector with
    | JSValue.jstr s => trimJS s
    | _ => ""
  else rhtSelector1 highlightData pageData

def resolveHighlightTarget (highlightData : HighlightData) (pageData : PageData) :
    Option ResolvedTarget :=
  if rhtSelector2 highlightData pageData = "" then none
  else some { selector := rhtSelector2 highlightData pageData,
              description :=
                if rhtDescription1 highlightData pageData = "" then "Recommended action"
                else rhtDescription1 highlightData pageData }

def fallbackCombined (element : InteractiveElement) : List Char :=
  trimChars (lowerChars (element.text ++ " " ++ element.ariaLabel).data)

def fallbackScore (lowerText : List Char) (element : InteractiveElement) : Int :=
  (if containsSub (fallbackCombined element) lowerText then 50 else 0) +
    4 * (((wsTokens (fallbackCombined element)).filter
            (fun token => containsSub token lowerText)).length : Int)

def fallbackLoop (lowerText : List Char) :
    InteractiveElement × Int → List InteractiveElement → InteractiveElement × Int
  | acc, [] => acc
  | acc, element :: rest =>
      if fallbackCombined element = [] then fallbackLoop lowerText acc rest
      else if acc.2 < fallbackScore lowerText element then
        fallbackLoop lowerText (element, fallbackScore lowerText element) rest
      else fallbackLoop lowerText acc rest

def resolveFallbackHighlightTarget (pageData : PageData) (responseText : String) :
    Option ResolvedTarget :=
  match pageData.interactiveElements with
  | [] => none
  | e0 :: rest =>
      let lowerText := lowerChars responseText.data
      let best := fallbackLoop lowerText (e0, -1) (e0 :: rest)
      if best.1.selector = "" then none
      else some { selector := best.1.selector,
                  description := jsOr best.1.text (jsOr best.1.ariaLabel "Start here") }

/-- The resolution pipeline of `handleGeminiResponse`
(src/unnamed/part_000:1220-1232): the parsed instruction (if any) through
`resolveHighlightTarget`, then `resolveFallbackHighlightTarget`. -/
def resolveTargetPipeline (parsed : Option HighlightData) (pageData : PageData)
    (displayText : String) : Option ResolvedTarget :=
  let target := match parsed with
    | some highlightData => resolveHighlightTarget highlightData pageData
    | none => none
  match target with
  | some t => some t
  | none => resolveFallbackHighlightTarget pageData displayText

/-- Whether the instruction carries a usable selector field (a string with
non-empty trim), the condition of the secondary path. -/
def selectorSupplied (parsed : Option HighlightData) : Bool :=
  match parsed with
  | none => false
  | some highlightData =>
      match highlightData.selector with
      | JSValue.jstr s => trimJS s ≠ ""
      | _ => false

/-- Well-formedness from the data model (§3): a captured descriptor's
`selector` is a non-empty locator string. -/
def wellFormedSnapshot (pageData : PageData) : Prop :=
  ∀ e ∈ pageData.interactiveElements, e.selector ≠ ""

/- ## Response Interpreter (src/unnamed/part_000:1136-1163, 1196-1248) -/

def stripLineBulletPrefix (line : List Char) : List Char :=
  match line.dropWhile isWs with
  | c :: rest =>
      if c = '-' ∨ c = '*' ∨ c = '•' then rest.dropWhile isWs else line
  | [] => line

def stripLineNumPrefix (line : List Char) : List Char :=
  let ws := line.dropWhile isWs
  if ws.takeWhile Char.isDigit = [] then line
  else
    match ws.dropWhile Char.isDigit with
    | c :: rest => if c = '.' ∨ c = ')' then rest.dropWhile isWs else line
    | [] => line

def splitLines (cs : List Char) : List (List Char) :=
  cs.splitOn '\n'

/-- JS `replace(/\s+/g, ' ')`, written with explicit fuel (each step
consumes at least one character, so `cs.length` fuel always suffices) so
that the recursion is structural and kernel-computable. -/
def collapseWsFuel : ℕ → List Char → List Char
  | 0, _ => []
  | _ + 1, [] => []
  | fuel + 1, c :: rest =>
      if isWs c then ' ' :: collapseWsFuel fuel (rest.dropWhile isWs)
      else c :: collapseWsFuel fuel rest

def collapseWsChars (cs : List Char) : List Char :=
  collapseWsFuel cs.length cs

/-- Split at `(?<=[.!?])\s+`: after sentence punctuation, a whitespace run
separates parts and is consumed.  Fuel as in `collapseWsFuel`. -/
def sentenceSplitFuel : ℕ → List Char → List Char → List (List Char)
  | 0, _, acc => [acc.reverse]
  | _ + 1, [], acc => [acc.reverse]
  | fuel + 1, c :: rest, acc =>
      if (c = '.' ∨ c = '!' ∨ c = '?') ∧ rest.head?.any isWs then
        (c :: acc).reverse :: sentenceSplitFuel fuel (rest.dropWhile isWs) []
      else sentenceSplitFuel fuel rest (c :: acc)

def sentenceSplit (cs : List Char) : List (List Char) :=
  sentenceSplitFuel cs.length cs []

def capitalizeChars : List Char → List Char
  | [] => []
  | c :: rest => Char.toUpper c :: rest

def formatActionStepResponse (text : String) : String :=
  let cleaned := trimChars
    (List.intercalate ['\n']
      ((splitLines (text.data.filter (fun c => c ≠ '\r'))).map
        (fun l => stripLineNumPrefix (stripLineBulletPrefix l))))
  if cleaned = [] then "Click the recommended option to continue."
  else
    let sentenceLikeParts :=
      ((((splitLines cleaned).filter (fun l => l ≠ [])).flatMap sentenceSplit).map
          trimChars).filter (fun l => l ≠ [])
    let actionLines := (sentenceLikeParts.take 2).map
      (fun line => capitalizeChars (trimChars (collapseWsChars line)))
    if actionLines = [] then "Click the recommended option to continue."
    else String.mk (List.intercalate ['\n'] actionLines)

inductive GeminiOutcome where
  | clarified : String → GeminiOutcome
  | highlighted : String → ResolvedTarget → GeminiOutcome
  | reprompt : String → GeminiOutcome
  | unmatched : String → GeminiOutcome
deriving DecidableEq

def displayFormat (type clean : String) : String :=
  if type = "guide" ∨ type = "navigate" then formatActionStepResponse clean else clean

/-- Pure rendering of `handleGeminiResponse`
(src/unnamed/part_000:1196-1248).  `parseHighlightJson` stands for the
host `JSON.parse` applied to the highlight payload, returning `none` when
it throws (or when the parsed value is not an object, whose optional-chained
fields would all read as `undefined`, which resolves identically). -/
def handleGeminiResponse (response type : String) (pageData : PageData)
    (parseHighlightJson : String → Option HighlightData) : GeminiOutcome :=
  match clarifyMatch response with
  | some m =>
      GeminiOutcome.clarified
        (jsOr (trimJS m.2.1) "Could you clarify what you want to do on this page?")
  | none =>
      let hm := highlightMatch response
      let cleanResponse := trimJS (match hm with
        | some m => m.1 ++ m.2.2
        | none => response)
      let responseToDisplay := jsOr (displayFormat type cleanResponse)
        "I found a recommendation, but could not format it clearly."
      let parsed : Option HighlightData := match hm with
        | some m => parseHighlightJson m.2.1
        | none => none
      match resolveTargetPipeline parsed pageData responseToDisplay with
      | some target => GeminiOutcome.highlighted responseToDisplay target
      | none =>
          if type = "guide" ∨ type = "navigate" then
            GeminiOutcome.reprompt
              "I could not match that to anything on this page. What did you mean, or what should I look for?"
          else GeminiOutcome.unmatched responseToDisplay

/- ## Prompt Builder (src/unnamed/part_000:958-1051)

`JSON.stringify` on the fixed shapes interpolated into the prompt is
modelled by explicit serializers (escaping the quote and backslash, the
only escapes these payloads can need). -/

structure IndexedElement where
  index : ℕ
  tag : String
  type : String
  text : String
  ariaLabel : String
  href : String
deriving DecidableEq

def getIndexedInteractiveElements (pageData : PageData) : List IndexedElement :=
  (pageData.interactiveElements.take 20).mapIdx (fun index element =>
    { index := index, tag := element.tag, type := element.type,
      text := element.text, ariaLabel := element.ariaLabel, href := element.href })

def jsonEscape (s : String) : String :=
  String.mk (s.data.flatMap (fun c =>
    if c = '\\' then ['\\', '\\'] else if c = '"' then ['\\', '"'] else [c]))

def jsonStrLit (s : String) : String :=
  "\"" ++ jsonEscape s ++ "\""

def jsonOrNull (s : String) : String :=
  if s = "" then "null" else jsonStrLit s

def jsonOfIndexedElement (e : IndexedElement) : String :=
  "\x7b\"index\":" ++ toString e.index ++ ",\"tag\":" ++ jsonStrLit e.tag ++
    ",\"type\":" ++ jsonOrNull e.type ++ ",\"text\":" ++ jsonOrNull e.text ++
    ",\"ariaLabel\":" ++ jsonOrNull e.ariaLabel ++ ",\"href\":" ++ jsonOrNull e.href ++ "\x7d"

def jsonOfNavLink (l : NavLink) : String :=
  "\x7b\"text\":" ++ jsonStrLit l.text ++ ",\"href\":" ++ jsonStrLit l.href ++
    ",\"selector\":" ++ jsonStrLit l.selector ++ "\x7d"

def jsonOfHeading (h : Heading) : String :=
  "\x7b\"level\":" ++ toString h.level ++ ",\"text\":" ++ jsonStrLit h.text ++ "\x7d"

def jsonArray (items : List String) : String :=
  "[" ++ String.intercalate "," items ++ "]"

def baseContext (pageData : PageData) : String :=
  "\nYou are a helpful web accessibility guide. Your role is to help users understand web pages and navigate them effectively.\nYou speak in a friendly, clear, and concise manner - like a helpful tour guide.\n\nCurrent Page Information:\n- URL: " ++
    pageData.url ++ "\n- Title: " ++ pageData.title ++
    "\n- Main Content Summary: " ++ String.mk (pageData.textContent.data.take 3000) ++
    "\n- Interactive Elements (indexed): " ++
    jsonArray ((getIndexedInteractiveElements pageData).map jsonOfIndexedElement) ++
    "\n- Navigation Links: " ++
    jsonArray ((pageData.navigationLinks.take 15).map jsonOfNavLink) ++
    "\n- Page Structure: " ++ jsonArray (pageData.headings.map jsonOfHeading) ++ "\n"

def summarizePrompt (pageData : PageData) : String :=
  baseContext pageData ++
    "\n\nTask: Summarize this page for the user.\nPlease provide:\n1. A brief explanation of what this page is (1-2 sentences)\n2. The main purpose or content of the page\n3. Key sections or features available\n\nKeep your response concise (under 100 words) and speak naturally as if talking to the user.\nFormat your response as plain text, not markdown."

def guidePrompt (pageData : PageData) : String :=
  baseContext pageData ++
    "\n\nTask: Answer this exact question for the user: \"What\x27s the best next action?\"\nPlease provide:\n1. One clear recommended next action\n2. 1-2 short alternatives\n\nIf the user\x27s request is unclear, seems unrelated to the page, or could reflect a speech impairment/misheard phrase, ask one short clarification question instead.\nWhen asking a clarification question, wrap it in:\n[CLARIFY]your question here[/CLARIFY]\nDo not include a highlight block when clarifying.\n\nOutput rules (strict):\n- Return exactly 1-2 short, simple, concrete next-step sentences.\n- Each sentence must start with an action verb (for example: \"Click\", \"Review\", \"Upload\", \"Open\", \"Select\", \"Enter\").\n- No preamble, no filler, no markdown, no bullet points.\n- Maximum 2 lines total.\n\nIMPORTANT OUTPUT FORMAT:\nAt the end, include exactly one JSON block:\n[HIGHLIGHT_ELEMENT]\x7b\"elementIndex\": NUMBER, \"description\": \"SHORT_LABEL\"\x7d[/HIGHLIGHT_ELEMENT]\n\nRules:\n- elementIndex must be one of the interactive element indexes provided above.\n- Choose the single best button/link/input the user should act on next.\n- description should be a short label suitable for a tooltip."

def navigatePrompt (pageData : PageData) (customQuery : String) : String :=
  baseContext pageData ++
    "\n\nUser Request: \"" ++ customQuery ++
    "\"\n\nTask: Help the user find what they\x27re looking for.\n1. Identify if the requested item/action exists on this page\n2. If yes, explain where it is and how to access it\n3. If no, suggest the closest alternative or explain what\x27s available\n\nIf the user\x27s request is unclear, not aligned with anything on the page, or could reflect a speech impairment/misheard phrase, ask one short clarification question instead.\nWhen asking a clarification question, wrap it in:\n[CLARIFY]your question here[/CLARIFY]\nDo not include a highlight block when clarifying.\n\nOutput rules (strict):\n- Return exactly 1-2 short, simple, concrete next-step sentences.\n- Each sentence must start with an action verb (for example: \"Click\", \"Review\", \"Upload\", \"Open\", \"Select\", \"Enter\").\n- No preamble, no filler, no markdown, no bullet points.\n- Maximum 2 lines total.\n\nIMPORTANT: If you found a relevant element, include a JSON block:\n[HIGHLIGHT_ELEMENT]\x7b\"elementIndex\": NUMBER, \"description\": \"BRIEF_DESCRIPTION\"\x7d[/HIGHLIGHT_ELEMENT]\n\nEven if no exact match exists, choose the closest practical next step and still include the highlight block."

/-- The member names of `Object.prototype` in a standard ECMAScript
environment.  A bracket lookup `obj[key]` on an object literal that has no
own property named `key` continues along the prototype chain and yields
the inherited member for these names; each such member is a function (or,
for `__proto__`, an object), hence truthy. -/
def objectProtoMembers : List String :=
  ["constructor", "hasOwnProperty", "isPrototypeOf", "propertyIsEnumerable",
   "toLocaleString", "toString", "valueOf", "__defineGetter__", "__defineSetter__",
   "__lookupGetter__", "__lookupSetter__", "__proto__"]

/-- The value `buildPrompt` returns: one of the template strings, or —
when `prompts[type]` hits an inherited `Object.prototype` member — that
(non-string, truthy) member itself, identified by its name. -/
inductive BuildPromptResult where
  | promptText : String → BuildPromptResult
  | inheritedMember : String → BuildPromptResult
deriving DecidableEq

/-- `buildPrompt` (src/unnamed/part_000:969-1051).  `prompts[type]` is a
JS bracket lookup on an object literal: an own key (`summarize`, `guide`,
`navigate`) shadows the prototype; otherwise the lookup continues to
`Object.prototype`, whose members are truthy, so `|| prompts.summarize`
does not replace them; only a genuinely absent key yields `undefined`
(falsy) and falls back to the summarize template.  String truthiness of
an own-key hit is modelled by the `p = ""` test. -/
def buildPrompt (type : String) (pageData : PageData) (customQuery : String) :
    BuildPromptResult :=
  let lookedUp : Option BuildPromptResult :=
    if type = "summarize" then some (BuildPromptResult.promptText (summarizePrompt pageData))
    else if type = "guide" then some (BuildPromptResult.promptText (guidePrompt pageData))
    else if type = "navigate" then
      some (BuildPromptResult.promptText (navigatePrompt pageData customQuery))
    else if type ∈ objectProtoMembers then some (BuildPromptResult.inheritedMember type)
    else none
  match lookedUp with
  | some (BuildPromptResult.promptText p) =>
      if p = "" then BuildPromptResult.promptText (summarizePrompt pageData)
      else BuildPromptResult.promptText p
  | some r => r
  | none => BuildPromptResult.promptText (summarizePrompt pageData)

/- ## Selector Generator and a document model (C7)

A document is a tree of elements; a node is identified by its child-index
path from the root, which plays the role of a DOM reference (reference
equality = path equality).  Selectors are represented as the abstract
syntax of exactly the fragment `generateSelector` emits (`CSS.escape` is
injective, so string escaping is transparent in this representation),
and `querySelector` returns the first document-order (preorder) match,
as in the DOM. -/

structure ElemData where
  tag : String
  idAttr : String
  classes : List String
  dataAttrs : List (String × String)
deriving DecidableEq

inductive DomTree where
  | node : ElemData → List DomTree → DomTree

def DomTree.dataOf : DomTree → ElemData
  | node d _ => d

def DomTree.childrenOf : DomTree → List DomTree
  | node _ cs => cs

def nodeAt : DomTree → List ℕ → Option DomTree
  | t, [] => some t
  | DomTree.node _ cs, i :: p =>
      match cs[i]? with
      | some c => nodeAt c p
      | none => none

mutual
def allPaths : DomTree → List (List ℕ)
  | DomTree.node _ cs => [] :: listPaths cs 0
def listPaths : List DomTree → ℕ → List (List ℕ)
  | [], _ => []
  | c :: rest, i => (allPaths c).map (fun p => i :: p) ++ listPaths rest (i + 1)
end

inductive Sel where
  | byId : String → Sel
  | byTagClasses : String → List String → Sel
  | byTagData : String → String → String → Sel
  | childNth : Sel → String → ℕ → Sel
  | byTag : String → Sel
deriving DecidableEq

def matchesSel (root : DomTree) : List ℕ → Sel → Bool
  | p, Sel.byId s =>
      match nodeAt root p with
      | some t => t.dataOf.idAttr = s
      | none => false
  | p, Sel.byTagClasses tag cls =>
      match nodeAt root p with
      | some t => t.dataOf.tag = tag && cls.all (fun c => decide (c ∈ t.dataOf.classes))
      | none => false
  | p, Sel.byTagData tag a v =>
      match nodeAt root p with
      | some t => t.dataOf.tag = tag && decide ((a, v) ∈ t.dataOf.dataAttrs)
      | none => false
  | p, Sel.childNth parentSel tag k =>
      match nodeAt root p with
      | some t =>
          t.dataOf.tag = tag &&
            (match p.getLast? with
             | some j => j + 1 = k
             | none => false) &&
            matchesSel root p.dropLast parentSel
      | none => false
  | p, Sel.byTag tag =>
      match nodeAt root p with
      | some t => t.dataOf.tag = tag
      | none => false

def querySelectorModel (root : DomTree) (sel : Sel) : Option (List ℕ) :=
  (allPaths root).find? (fun p => matchesSel root p sel)

def countMatches (root : DomTree) (sel : Sel) : ℕ :=
  ((allPaths root).filter (fun p => matchesSel root p sel)).length

/-- `PageExtractor.generateSelector` (src/unnamed/part_000:1529-1566).
The nth-child index `siblings.indexOf(el) + 1` is the node\x27s position
among its parent\x27s children, i.e. the last step of its path, plus one. -/
def generateSelectorFuel : ℕ → DomTree → List ℕ → Sel
  | fuel, root, p =>
    match nodeAt root p with
    | none => Sel.byTag ""
    | some t =>
        let d := t.dataOf
        if d.idAttr ≠ "" then Sel.byId d.idAttr
        else
          let classSel : Option Sel :=
            if d.classes ≠ [] then
              if countMatches root (Sel.byTagClasses d.tag (d.classes.take 2)) = 1 then
                some (Sel.byTagClasses d.tag (d.classes.take 2))
              else none
            else none
          match classSel with
          | some s => s
          | none =>
              match d.dataAttrs.find? (fun av =>
                  av.2 ≠ "" && countMatches root (Sel.byTagData d.tag av.1 av.2) = 1) with
              | some av => Sel.byTagData d.tag av.1 av.2
              | none =>
                  if hp : p = [] then Sel.byTag d.tag
                  else
                    match fuel with
                    | 0 => Sel.byTag ""
                    | fuel + 1 =>
                        Sel.childNth (generateSelectorFuel fuel root p.dropLast) d.tag
                          (p.getLast hp + 1)

/-- The recursion ascends one parent per step, so `p.length` fuel always
suffices and the out-of-fuel clause is unreachable. -/
def generateSelector (root : DomTree) (p : List ℕ) : Sel :=
  generateSelectorFuel p.length root p

/- ## Overlay Controller (VisualGuide, src/unnamed/part_000:1572-2004)

State carries the object\x27s fields; the document is modelled by the list
of overlay nodes present (every such node bears one of the three marker
classes) plus the attached-listener flags; `setTimeout` callbacks are
queued explicitly (`creationTimers` for the 300ms settle callback of
`highlightElement`, `dismissArmTimers` for the 500ms click-listener
arming of `createHighlight`).  Geometry (rects, arrow sides, styles) has
no effect on the node set or listeners and is not modelled. -/

inductive NodeKind where
  | highlight
  | arrow
  | tooltip
deriving DecidableEq

structure GuideState where
  currentHighlight : Option ℕ
  currentArrow : Option ℕ
  currentTooltip : Option ℕ
  currentTargetElement : Option ℕ
  currentDescription : String
  currentIsInteractive : Bool
  currentArrowSide : String
  dismissHandler : Bool
  viewportHandler : Bool
  pendingFrame : Bool
deriving DecidableEq

structure PendingShow where
  isInteractive : Bool
  description : String
deriving DecidableEq

structure GuideSys where
  st : GuideState
  overlayNodes : List (ℕ × NodeKind)
  nextId : ℕ
  scrollListener : Bool
  resizeListener : Bool
  clickListener : Bool
  creationTimers : List PendingShow
  dismissArmTimers : ℕ
  attachedTargets : List ℕ
deriving DecidableEq

def removeNodeRef (nodes : List (ℕ × NodeKind)) (ref : Option ℕ) : List (ℕ × NodeKind) :=
  match ref with
  | some nid => nodes.filter (fun nk => nk.1 ≠ nid)
  | none => nodes

/-- Every overlay node carries one of the marker classes
`webguide-highlight`, `webguide-arrow`, `webguide-tooltip` swept by
`clearHighlights`. -/
def isGuideMarker : NodeKind → Bool
  | _ => true

/-- `VisualGuide.clearHighlights` (src/unnamed/part_000:1955-1989). -/
def clearHighlights (sys : GuideSys) : GuideSys :=
  let sys := if sys.st.pendingFrame then
      { sys with st := { sys.st with pendingFrame := false } }
    else sys
  let sys := if sys.st.viewportHandler then
      { sys with scrollListener := false, resizeListener := false }
    else sys
  let sys := if sys.st.dismissHandler then
      { sys with clickListener := false, st := { sys.st with dismissHandler := false } }
    else sys
  let sys := { sys with overlayNodes := removeNodeRef sys.overlayNodes sys.st.currentHighlight,
                        st := { sys.st with currentHighlight := none } }
  let sys := { sys with overlayNodes := removeNodeRef sys.overlayNodes sys.st.currentArrow,
                        st := { sys.st with currentArrow := none } }
  let sys := { sys with overlayNodes := removeNodeRef sys.overlayNodes sys.st.currentTooltip,
                        st := { sys.st with currentTooltip := none } }
  let sys := { sys with overlayNodes := sys.overlayNodes.filter (fun nk => ¬ isGuideMarker nk.2) }
  { sys with st := { sys.st with currentTargetElement := none, currentDescription := "",
                                 currentIsInteractive := true, currentArrowSide := "top" } }

def createHighlight (_isInteractive : Bool) (sys : GuideSys) : GuideSys :=
  let sys := { sys with
    overlayNodes := sys.overlayNodes ++ [(sys.nextId, NodeKind.highlight)],
    st := { sys.st with currentHighlight := some sys.nextId, dismissHandler := true },
    nextId := sys.nextId + 1 }
  { sys with dismissArmTimers := sys.dismissArmTimers + 1 }

def createArrow (_isInteractive : Bool) (sys : GuideSys) : GuideSys :=
  { sys with
    overlayNodes := sys.overlayNodes ++ [(sys.nextId, NodeKind.arrow)],
    st := { sys.st with currentArrow := some sys.nextId },
    nextId := sys.nextId + 1 }

def createTooltip (description : String) (sys : GuideSys) : GuideSys :=
  if description = "" then sys
  else
    { sys with
      overlayNodes := sys.overlayNodes ++ [(sys.nextId, NodeKind.tooltip)],
      st := { sys.st with currentTooltip := some sys.nextId },
      nextId := sys.nextId + 1 }

def updateGuidePositions (sys : GuideSys) : GuideSys :=
  match sys.st.currentTargetElement, sys.st.currentHighlight, sys.st.currentArrow with
  | some tgt, some _, some _ =>
      if tgt ∈ sys.attachedTargets then sys
      else clearHighlights sys
  | _, _, _ => sys

def enableViewportTracking (sys : GuideSys) : GuideSys :=
  { sys with st := { sys.st with viewportHandler := true },
             scrollListener := true, resizeListener := true }

/-- `VisualGuide.highlightElement` (src/unnamed/part_000:1587-1637).
`foundElement` is the result of the host-side element lookup
(`querySelector`, description search, actionable snapping), and
`isInteractive` the host-computed verdict of `isInteractiveElement`. -/
def highlightElement (foundElement : Option ℕ) (description : String)
    (isInteractive : Bool) (sys : GuideSys) : GuideSys × Bool :=
  let sys := clearHighlights sys
  match foundElement with
  | none => (sys, false)
  | some el =>
      let sys := { sys with st := { sys.st with
        currentTargetElement := some el,
        currentDescription := description,
        currentIsInteractive := isInteractive } }
      ({ sys with creationTimers := sys.creationTimers ++
          [{ isInteractive := isInteractive, description := description }] }, true)

/-- The 300ms settle callback of `highlightElement`
(src/unnamed/part_000:1628-1634) firing. -/
def fireCreationTimer (sys : GuideSys) : GuideSys :=
  match sys.creationTimers with
  | [] => sys
  | job :: rest =>
      let sys := { sys with creationTimers := rest }
      enableViewportTracking (updateGuidePositions
        (createTooltip job.description (createArrow job.isInteractive
          (createHighlight job.isInteractive sys))))

/-- The 500ms click-listener arming callback of `createHighlight`
(src/unnamed/part_000:1767-1769) firing; `addEventListener` with a null
handler is a no-op. -/
def fireDismissArmTimer (sys : GuideSys) : GuideSys :=
  match sys.dismissArmTimers with
  | 0 => sys
  | n + 1 =>
      let sys := { sys with dismissArmTimers := n }
      if sys.st.dismissHandler then { sys with clickListener := true } else sys

inductive GuideEvent where
  | show : Option ℕ → String → Bool → GuideEvent
  | settle : GuideEvent
  | armDismiss : GuideEvent
  | clear : GuideEvent
deriving DecidableEq

def stepGuide (sys : GuideSys) : GuideEvent → GuideSys
  | GuideEvent.show el desc inter => (highlightElement el desc inter sys).1
  | GuideEvent.settle => fireCreationTimer sys
  | GuideEvent.armDismiss => fireDismissArmTimer sys
  | GuideEvent.clear => clearHighlights sys

def runGuide (sys : GuideSys) (events : List GuideEvent) : GuideSys :=
  events.foldl stepGuide sys

def initGuideSys : GuideSys :=
  { st := { currentHighlight := none, currentArrow := none, currentTooltip := none,
            currentTargetElement := none, currentDescription := "",
            currentIsInteractive := true, currentArrowSide := "top",
            dismissHandler := false, viewportHandler := false, pendingFrame := false },
    overlayNodes := [], nextId := 0, scrollListener := false, resizeListener := false,
    clickListener := false, creationTimers := [], dismissArmTimers := 0,
    attachedTargets := [0] }

def countKind (nodes : List (ℕ × NodeKind)) (k : NodeKind) : ℕ :=
  (nodes.filter (fun nk => nk.2 = k)).length

/- ## Sample data and auxiliary predicates used by the theorems -/

/-- Concrete document for C2: 51 selector matches, the first invisible,
the remaining 50 visible. -/
def c2Doc : List PageElem :=
  { visible := false, desc := defaultElem } ::
    List.replicate 50 { visible := true, desc := defaultElem }

/-- C2 counterexample: the capture loop skips matches with query index
≥ 50 before testing visibility, so on a document whose first selector
match is invisible and next 50 are visible it collects only 49
descriptors, while "every visible match until 50 visible matches have
been collected" demands 50. -/

def signinElem : InteractiveElement :=
  { tag := "button", type := "", text := "Sign In", ariaLabel := "", idAttr := ""
    className := "", href := "", selector := "#signin", posTop := 0, posLeft := 0 }

def pdSample : PageData :=
  { url := "https://example.com", title := "Example", textContent := "Welcome",
    interactiveElements := [signinElem], navigationLinks := [], headings := [] }

/-- The failing trace: two `highlightElement` calls in direct succession
(the second arriving before the first 300ms settle timeout fires), then
both queued settle callbacks firing. -/
def c1RaceTrace : List GuideEvent :=
  [GuideEvent.show (some 0) "Sign in" true, GuideEvent.show (some 0) "Sign in" true,
   GuideEvent.settle, GuideEvent.settle]

/-- Reference trace: the same two calls with the first settle callback
firing before the second call. -/
def c1SequentialTrace : List GuideEvent :=
  [GuideEvent.show (some 0) "Sign in" true, GuideEvent.settle,
   GuideEvent.show (some 0) "Sign in" true, GuideEvent.settle]

def pdEmpty : PageData :=
  { url := "u", title := "t", textContent := "",
    interactiveElements := [], navigationLinks := [], headings := [] }

def pdTen : PageData :=
  { url := "u", title := "t", textContent := "",
    interactiveElements :=
      ["#e0", "#e1", "#e2", "#e3", "#e4", "#e5", "#e6", "#e7", "#e8", "#e9"].map
        (fun sel => { defaultElem with selector := sel }),
    navigationLinks := [], headings := [] }

def docIds (root : DomTree) : List String :=
  (allPaths root).filterMap (fun p =>
    match nodeAt root p with
    | some t => if t.dataOf.idAttr = "" then none else some t.dataOf.idAttr
    | none => none)

/-- HTML validity constraints under which the generated selector has a
unique match: `id` values are unique in the document, and the root's tag
name (the terminal bare-tag selector of the recursion) matches only the
root. -/
def wellFormedDoc (root : DomTree) : Prop :=
  (docIds root).Nodup ∧ countMatches root (Sel.byTag root.dataOf.tag) = 1

instance (root : DomTree) : Decidable (wellFormedDoc root) := by
  unfold wellFormedDoc
  infer_instance

def dupDoc : DomTree :=
  DomTree.node { tag := "html", idAttr := "", classes := [], dataAttrs := [] }
    [DomTree.node { tag := "div", idAttr := "dup", classes := [], dataAttrs := [] } [],
     DomTree.node { tag := "div", idAttr := "dup", classes := [], dataAttrs := [] } []]

def wDoc : DomTree :=
  DomTree.node { tag := "html", idAttr := "", classes := [], dataAttrs := [] }
    [DomTree.node { tag := "body", idAttr := "", classes := [], dataAttrs := [] }
      [DomTree.node { tag := "button", idAttr := "go", classes := [], dataAttrs := [] } [],
       DomTree.node { tag := "div", idAttr := "", classes := ["card"], dataAttrs := [] } []]]

/- ## Proofs -/

lemma collectInteractive_ge (i : ℕ) (h : 50 ≤ i) (l : List PageElem) :
    collectInteractive i l = [] := by
  induction l generalizing i with
  | nil => rfl
  | cons e rest ih =>
      unfold collectInteractive
      rw [if_pos h]
      exact ih (i + 1) (Nat.le_succ_of_le h)

lemma collectInteractive_eq (i : ℕ) (l : List PageElem) :
    collectInteractive i l =
      ((l.take (50 - i)).filter (fun e => e.visible)).map (fun e => e.desc) := by
  induction l generalizing i with
  | nil => simp [collectInteractive]
  | cons e rest ih =>
      by_cases h : 50 ≤ i
      · rw [collectInteractive_ge i h]
        rw [Nat.sub_eq_zero_of_le h]
        simp
      · unfold collectInteractive
        rw [if_neg h]
        have hpos : 0 < 50 - i := Nat.sub_pos_of_lt (Nat.lt_of_not_le h)
        obtain ⟨k, hk⟩ : ∃ k, 50 - i = k + 1 :=
          ⟨50 - i - 1, by omega⟩
        have hk' : 50 - (i + 1) = k := by omega
        rw [hk, List.take_succ_cons]
        rw [ih (i + 1), hk']
        by_cases hv : e.visible
        · simp [hv, List.filter_cons]
        · simp [hv, List.filter_cons]

/- ### C2: interactive-element capture cap -/

theorem getInteractiveElements_take_filter (found : List PageElem) :
    getInteractiveElements found =
      ((found.take 50).filter (fun e => e.visible)).map (fun e => e.desc) := by
  have h := collectInteractive_eq 0 found
  simp [getInteractiveElements] at h
  exact h

theorem c2_cap_counterexample :
    (getInteractiveElements c2Doc).length = 49 ∧
      (specCapturedInteractive c2Doc).length = 50 ∧
      getInteractiveElements c2Doc ≠ specCapturedInteractive c2Doc := by
  refine ⟨by decide, by decide, ?_⟩
  intro h
  have : (getInteractiveElements c2Doc).length = (specCapturedInteractive c2Doc).length := by
    rw [h]
  rw [show (getInteractiveElements c2Doc).length = 49 from by decide,
    show (specCapturedInteractive c2Doc).length = 50 from by decide] at this
  exact absurd this (by decide)

/-- C2 (amended): capture examines only the first 50 selector matches in
document order and keeps those that pass the visibility predicate; the
snapshot list therefore never exceeds 50 entries (but may omit visible
matches whose query index is ≥ 50). -/
theorem c2_cap_amended (found : List PageElem) :
    getInteractiveElements found =
      ((found.take 50).filter (fun e => e.visible)).map (fun e => e.desc) ∧
      (getInteractiveElements found).length ≤ 50 := by
  refine ⟨getInteractiveElements_take_filter found, ?_⟩
  rw [getInteractiveElements_take_filter found]
  calc (((found.take 50).filter (fun e => e.visible)).map (fun e => e.desc)).length
      = ((found.take 50).filter (fun e => e.visible)).length := List.length_map _ _
    _ ≤ (found.take 50).length := List.length_filter_le _ _
    _ ≤ 50 := List.length_take_le 50 found

/- ### C10: prompt lookup fallback -/

/-- C10 counterexample: `"toString"` is outside the three template keys,
yet `prompts["toString"]` finds the inherited
`Object.prototype.toString` function — truthy, so
`|| prompts.summarize` keeps it — and `buildPrompt` returns that
function, not the summarize prompt. -/
theorem c10_proto_counterexample :
    buildPrompt "toString" pdSample "" = BuildPromptResult.inheritedMember "toString" ∧
      buildPrompt "toString" pdSample "" ≠
        BuildPromptResult.promptText (summarizePrompt pdSample) := by
  have h : buildPrompt "toString" pdSample "" =
      BuildPromptResult.inheritedMember "toString" := by decide
  refine ⟨h, ?_⟩
  rw [h]
  intro hc
  exact BuildPromptResult.noConfusion hc

/-- C10 (amended): for a task kind outside summarize/guide/navigate, the
bracket lookup returns the inherited `Object.prototype` member when the
kind names one (truthy, so `||` keeps it), and otherwise misses
(`undefined`, falsy) so the builder returns the summarize prompt rather
than failing. -/
theorem c10_unknown_kind_lookup (type : String) (pageData : PageData)
    (customQuery : String) (h1 : type ≠ "summarize") (h2 : type ≠ "guide")
    (h3 : type ≠ "navigate") :
    buildPrompt type pageData customQuery =
      (if type ∈ objectProtoMembers then BuildPromptResult.inheritedMember type
       else BuildPromptResult.promptText (summarizePrompt pageData)) := by
  unfold buildPrompt
  by_cases h4 : type ∈ objectProtoMembers
  · simp [h1, h2, h3, h4]
  · simp [h1, h2, h3, h4]

theorem c10_unknown_kind_lookup_witness :
    buildPrompt "explain" pdSample "" =
        BuildPromptResult.promptText (summarizePrompt pdSample) ∧
      buildPrompt "hasOwnProperty" pdSample "" =
        BuildPromptResult.inheritedMember "hasOwnProperty" := by
  constructor
  · have h := c10_unknown_kind_lookup "explain" pdSample ""
      (by decide) (by decide) (by decide)
    rw [h, if_neg (by decide)]
  · have h := c10_unknown_kind_lookup "hasOwnProperty" pdSample ""
      (by decide) (by decide) (by decide)
    rw [h, if_pos (by decide)]

/- ### C1: two show calls within the settle delay -/

/-- C1: `clearHighlights` cancels the pending animation frame but not the
pending 300ms creation timeout, so when the second `show` lands inside
the settle delay both queued callbacks fire and the document ends with
two highlight, two arrow and two tooltip nodes — the first triple leaked
— whereas spaced-out calls leave exactly one of each. -/
theorem c1_settle_race_leaks_nodes :
    (countKind (runGuide initGuideSys c1RaceTrace).overlayNodes NodeKind.highlight = 2 ∧
      countKind (runGuide initGuideSys c1RaceTrace).overlayNodes NodeKind.arrow = 2 ∧
      countKind (runGuide initGuideSys c1RaceTrace).overlayNodes NodeKind.tooltip = 2) ∧
    (countKind (runGuide initGuideSys c1SequentialTrace).overlayNodes NodeKind.highlight = 1 ∧
      countKind (runGuide initGuideSys c1SequentialTrace).overlayNodes NodeKind.arrow = 1 ∧
      countKind (runGuide initGuideSys c1SequentialTrace).overlayNodes NodeKind.tooltip = 1) := by
  decide

/- ### C8: clearHighlights idempotence -/

/-- C8: `clearHighlights` is total (the model has no failing operation),
removes every overlay marker node from the document, detaches the
scroll/resize listeners (whenever the viewport handler was installed)
and the click listener (whenever the dismiss handler was installed), and
a second call is the identity on the resulting system. -/
theorem c8_clear_idempotent (sys : GuideSys) :
    clearHighlights (clearHighlights sys) = clearHighlights sys ∧
      (clearHighlights sys).overlayNodes = [] ∧
      (clearHighlights sys).st.dismissHandler = false ∧
      (sys.st.viewportHandler = true →
        (clearHighlights sys).scrollListener = false ∧
          (clearHighlights sys).resizeListener = false) ∧
      (sys.st.dismissHandler = true → (clearHighlights sys).clickListener = false) := by
  obtain ⟨⟨ch, ca, ct, cte, cd, cii, cas, dh, vh, pf⟩, nodes, nid, sl, rl, cl, timers, arm, att⟩ := sys
  cases dh <;> cases vh <;> cases pf <;>
    simp [clearHighlights, removeNodeRef, isGuideMarker]

theorem c8_clear_idempotent_witness :
    clearHighlights (clearHighlights (runGuide initGuideSys c1SequentialTrace)) =
        clearHighlights (runGuide initGuideSys c1SequentialTrace) ∧
      (clearHighlights (runGuide initGuideSys c1SequentialTrace)).scrollListener = false :=
  ⟨(c8_clear_idempotent (runGuide initGuideSys c1SequentialTrace)).1,
    ((c8_clear_idempotent (runGuide initGuideSys c1SequentialTrace)).2.2.2.1 (by decide)).1⟩

/- ### C4: clarify block short-circuits -/

/-- C4: whenever the reply contains a `[CLARIFY]...[/CLARIFY]` block, the
interpreter returns the (trimmed, defaulted-if-blank) block content as a
clarification and stops: the outcome carries no highlight target, and it
is independent of the snapshot and of the highlight-JSON parser — the
element resolver is never consulted — regardless of any trailing
highlight-looking text. -/
theorem c4_clarify_short_circuits (response type : String) (pageData : PageData)
    (parse : String → Option HighlightData) (m : String × String × String)
    (h : clarifyMatch response = some m) :
    handleGeminiResponse response type pageData parse =
        GeminiOutcome.clarified
          (jsOr (trimJS m.2.1) "Could you clarify what you want to do on this page?") ∧
      ∀ (pd' : PageData) (parse' : String → Option HighlightData),
        handleGeminiResponse response type pd' parse' =
          handleGeminiResponse response type pageData parse := by
  constructor
  · unfold handleGeminiResponse
    rw [h]
  · intro pd' parse'
    unfold handleGeminiResponse
    rw [h]

theorem c4_clarify_short_circuits_witness :
    handleGeminiResponse "[CLARIFY]Which one?[/CLARIFY] Click the login button."
        "navigate" pdSample (fun _ => none) = GeminiOutcome.clarified "Which one?" := by
  have h := (c4_clarify_short_circuits
    "[CLARIFY]Which one?[/CLARIFY] Click the login button." "navigate" pdSample
    (fun _ => none) ("", "Which one?", " Click the login button.") (by decide)).1
  rw [h]
  decide

/- ### C5: highlight block stripped even on parse failure -/

/-- C5: when the reply has a highlight block (and no clarify block) whose
payload the JSON parser rejects, the displayed message is computed from
the reply with the block removed (`m.1 ++ m.2.2`), and the outcome is
exactly what the next resolution strategy (the text-similarity fallback
over that message) produces — a normal outcome, never an error: the parse
failure is silent. -/
theorem c5_strip_on_parse_failure (response type : String) (pageData : PageData)
    (parse : String → Option HighlightData) (m : String × String × String)
    (hc : clarifyMatch response = none)
    (hh : highlightMatch response = some m)
    (hp : parse m.2.1 = none) :
    handleGeminiResponse response type pageData parse =
      (match resolveFallbackHighlightTarget pageData
          (jsOr (displayFormat type (trimJS (m.1 ++ m.2.2)))
            "I found a recommendation, but could not format it clearly.") with
       | some t =>
          GeminiOutcome.highlighted
            (jsOr (displayFormat type (trimJS (m.1 ++ m.2.2)))
              "I found a recommendation, but could not format it clearly.") t
       | none =>
          if type = "guide" ∨ type = "navigate" then
            GeminiOutcome.reprompt
              "I could not match that to anything on this page. What did you mean, or what should I look for?"
          else
            GeminiOutcome.unmatched
              (jsOr (displayFormat type (trimJS (m.1 ++ m.2.2)))
                "I found a recommendation, but could not format it clearly.")) := by
  unfold handleGeminiResponse resolveTargetPipeline
  simp only [hc, hh, hp, displayFormat]

theorem c5_strip_on_parse_failure_witness :
    handleGeminiResponse
        "Click the sign in button. [HIGHLIGHT_ELEMENT]oops[/HIGHLIGHT_ELEMENT]"
        "guide" pdSample (fun _ => none) =
      GeminiOutcome.highlighted "Click the sign in button."
        { selector := "#signin", description := "Sign In" } := by
  have h := c5_strip_on_parse_failure
    "Click the sign in button. [HIGHLIGHT_ELEMENT]oops[/HIGHLIGHT_ELEMENT]"
    "guide" pdSample (fun _ => none) ("Click the sign in button. ", "oops", "")
    (by decide) (by decide) rfl
  rw [h]
  decide

/- ### Resolver lemmas -/

theorem jsOr_ne_empty (a b : String) (hb : b ≠ "") : jsOr a b ≠ "" := by
  unfold jsOr
  split
  · exact hb
  · assumption

theorem fallbackLoop_fst (lt : List Char) (acc : InteractiveElement × Int)
    (l : List InteractiveElement) :
    (fallbackLoop lt acc l).1 = acc.1 ∨ (fallbackLoop lt acc l).1 ∈ l := by
  induction l generalizing acc with
  | nil => left; rfl
  | cons e rest ih =>
      unfold fallbackLoop
      by_cases h1 : fallbackCombined e = []
      · rw [if_pos h1]
        rcases ih acc with h | h
        · left; exact h
        · right; exact List.mem_cons_of_mem _ h
      · rw [if_neg h1]
        by_cases h2 : acc.2 < fallbackScore lt e
        · rw [if_pos h2]
          rcases ih (e, fallbackScore lt e) with h | h
          · right; rw [h]; exact List.mem_cons_self _ _
          · right; exact List.mem_cons_of_mem _ h
        · rw [if_neg h2]
          rcases ih acc with h | h
          · left; exact h
          · right; exact List.mem_cons_of_mem _ h

theorem resolveFallback_ne_none (pd : PageData) (txt : String)
    (wf : wellFormedSnapshot pd) (hne : pd.interactiveElements ≠ []) :
    resolveFallbackHighlightTarget pd txt ≠ none := by
  unfold resolveFallbackHighlightTarget
  cases hl : pd.interactiveElements with
  | nil => exact absurd hl hne
  | cons e0 rest =>
      simp only
      have hmem : (fallbackLoop (lowerChars txt.data) (e0, -1) (e0 :: rest)).1 ∈
          e0 :: rest := by
        rcases fallbackLoop_fst (lowerChars txt.data) (e0, -1) (e0 :: rest) with h | h
        · rw [h]; exact List.mem_cons_self _ _
        · exact h
      have hsel : (fallbackLoop (lowerChars txt.data) (e0, -1) (e0 :: rest)).1.selector ≠ "" :=
        wf _ (hl ▸ hmem)
      rw [if_neg hsel]
      simp

theorem resolveFallback_none_of_nil (pd : PageData) (txt : String)
    (h : pd.interactiveElements = []) :
    resolveFallbackHighlightTarget pd txt = none := by
  unfold resolveFallbackHighlightTarget
  rw [h]

theorem rht_none_iff (hd : HighlightData) (pd : PageData) :
    resolveHighlightTarget hd pd = none ↔ rhtSelector2 hd pd = "" := by
  unfold resolveHighlightTarget
  split
  · simpa
  · simpa

theorem selectorSupplied_false_of_s2 (hd : HighlightData) (pd : PageData)
    (h : rhtSelector2 hd pd = "") : selectorSupplied (some hd) = false := by
  unfold rhtSelector2 at h
  unfold selectorSupplied
  by_cases h1 : rhtSelector1 hd pd = ""
  · rw [if_pos h1] at h
    cases hsel : hd.selector <;> rw [hsel] at h <;> simp_all
  · rw [if_neg h1] at h
    exact absurd h h1

theorem rht_none_of_nil (hd : HighlightData) (pd : PageData)
    (hnil : pd.interactiveElements = [])
    (hsel : selectorSupplied (some hd) = false) :
    resolveHighlightTarget hd pd = none := by
  have hhit : rhtIndexHit hd pd = none := by
    unfold rhtIndexHit
    cases hn : toNumber hd.elementIndex with
    | nan => rfl
    | val q =>
        have hcond : ¬(q.den = 1 ∧ 0 ≤ q ∧ q < (pd.interactiveElements.length : ℚ)) := by
          rw [hnil]
          rintro ⟨-, hq0, hqlt⟩
          simp only [List.length_nil, Nat.cast_zero] at hqlt
          exact absurd (lt_of_le_of_lt hq0 hqlt) (lt_irrefl 0)
        show (if q.den = 1 ∧ 0 ≤ q ∧ q < (pd.interactiveElements.length : ℚ) then
            pd.interactiveElements[q.num.toNat]? else none) = none
        rw [if_neg hcond]
  have hs1 : rhtSelector1 hd pd = "" := by
    unfold rhtSelector1
    rw [hhit]
  have hs2 : rhtSelector2 hd pd = "" := by
    unfold rhtSelector2
    rw [hs1, if_pos rfl]
    rw [show selectorSupplied (some hd) = (match hd.selector with
        | JSValue.jstr s => decide (trimJS s ≠ "")
        | _ => false) from rfl] at hsel
    cases hv : hd.selector <;> rw [hv] at hsel
    case jstr s =>
      simp only [decide_eq_false_iff_not, ne_eq, not_not] at hsel
      exact hsel
  rw [rht_none_iff]
  exact hs2

theorem rhtIndexHit_eq (hd : HighlightData) (pd : PageData) (q : ℚ)
    (e : InteractiveElement) (hq : toNumber hd.elementIndex = JSNum.val q)
    (hden : q.den = 1) (hpos : 0 ≤ q)
    (he : pd.interactiveElements[q.num.toNat]? = some e) :
    rhtIndexHit hd pd = some e := by
  unfold rhtIndexHit
  rw [hq]
  have hlt : q.num.toNat < pd.interactiveElements.length := by
    rcases List.getElem?_eq_some.mp he with ⟨h, -⟩
    exact h
  have hql : q < (pd.interactiveElements.length : ℚ) := by
    have hnum : (q.num : ℚ) = q := (Rat.den_eq_one_iff q).mp hden
    have hn0 : (0 : ℤ) ≤ q.num := Rat.num_nonneg.mpr hpos
    have h1 : ((q.num.toNat : ℕ) : ℤ) = q.num := Int.toNat_of_nonneg hn0
    have hqeq : ((q.num.toNat : ℕ) : ℚ) = q := by
      rw [← hnum]
      exact_mod_cast congrArg (fun z : ℤ => (z : ℚ)) h1
    rw [← hqeq]
    exact_mod_cast hlt
  show (if q.den = 1 ∧ 0 ≤ q ∧ q < (pd.interactiveElements.length : ℚ) then
      pd.interactiveElements[q.num.toNat]? else none) = some e
  rw [if_pos ⟨hden, hpos, hql⟩]
  exact he

theorem rht_index_result (hd : HighlightData) (pd : PageData) (q : ℚ)
    (e : InteractiveElement) (hq : toNumber hd.elementIndex = JSNum.val q)
    (hden : q.den = 1) (hpos : 0 ≤ q)
    (he : pd.interactiveElements[q.num.toNat]? = some e)
    (hsel : e.selector ≠ "") :
    resolveHighlightTarget hd pd =
      some { selector := e.selector,
             description :=
               if rhtDescription0 hd = "" then
                 jsOr e.text (jsOr e.ariaLabel "Recommended action")
               else rhtDescription0 hd } := by
  have hhit := rhtIndexHit_eq hd pd q e hq hden hpos he
  have hs1 : rhtSelector1 hd pd = e.selector := by
    unfold rhtSelector1
    rw [hhit]
  have hs2 : rhtSelector2 hd pd = e.selector := by
    unfold rhtSelector2
    rw [hs1, if_neg hsel]
  have hd1 : rhtDescription1 hd pd =
      (if rhtDescription0 hd = "" then jsOr e.text (jsOr e.ariaLabel "Recommended action")
       else rhtDescription0 hd) := by
    unfold rhtDescription1
    rw [hhit]
  unfold resolveHighlightTarget
  rw [hs2, if_neg hsel, hd1]
  by_cases h0 : rhtDescription0 hd = ""
  · rw [if_pos h0,
      if_neg (jsOr_ne_empty e.text (jsOr e.ariaLabel "Recommended action")
        (jsOr_ne_empty e.ariaLabel "Recommended action" (by decide)))]
  · rw [if_neg h0, if_neg h0]

/- ### C3: null only on empty snapshot without a supplied selector -/

/-- C3: the resolution pipeline (index path, then selector path, then
text-similarity fallback) returns `null` exactly when the snapshot has no
interactive elements and the instruction supplied no usable selector;
in particular a non-empty interactive-element list always yields a
non-null Resolved Target.  (Well-formedness of the snapshot — captured
descriptors carry non-empty selectors, §3 of the spec — is assumed.) -/
theorem c3_null_only_when_empty (parsed : Option HighlightData) (pd : PageData)
    (txt : String) (wf : wellFormedSnapshot pd) :
    resolveTargetPipeline parsed pd txt = none ↔
      (pd.interactiveElements = [] ∧ selectorSupplied parsed = false) := by
  unfold resolveTargetPipeline
  cases parsed with
  | none =>
      simp only [selectorSupplied]
      constructor
      · intro h
        refine ⟨?_, by trivial⟩
        by_contra hne
        exact resolveFallback_ne_none pd txt wf hne h
      · rintro ⟨hnil, -⟩
        exact resolveFallback_none_of_nil pd txt hnil
  | some hd =>
      simp only
      constructor
      · intro h
        cases hr : resolveHighlightTarget hd pd with
        | some t => rw [hr] at h; simp at h
        | none =>
            rw [hr] at h
            simp only at h
            refine ⟨?_, selectorSupplied_false_of_s2 hd pd ((rht_none_iff hd pd).mp hr)⟩
            by_contra hne
            exact resolveFallback_ne_none pd txt wf hne h
      · rintro ⟨hnil, hsel⟩
        rw [rht_none_of_nil hd pd hnil hsel]
        simp only
        exact resolveFallback_none_of_nil pd txt hnil

theorem c3_null_only_when_empty_witness :
    resolveTargetPipeline none pdEmpty "hello" = none :=
  (c3_null_only_when_empty none pdEmpty "hello"
    (by intro e he; simp [pdEmpty] at he)).mpr ⟨rfl, rfl⟩

theorem mem_of_getElemOpt {α : Type} {l : List α} {i : ℕ} {a : α}
    (h : l[i]? = some a) : a ∈ l := by
  rcases List.getElem?_eq_some.mp h with ⟨hi, rfl⟩
  exact List.getElem_mem hi

/- ### C6: primary index path and out-of-range fall-through -/

/-- C6: an integral `elementIndex` within range selects that descriptor's
selector, deriving the description from the descriptor's text/ariaLabel
when the instruction's description is blank; an out-of-range index such
as 99 against a 10-element snapshot makes `resolveHighlightTarget`
return null (no selector was supplied) so the pipeline falls through to
the text-similarity fallback. -/
theorem c6_index_paths :
    (∀ (pd : PageData) (hd : HighlightData) (i : ℕ) (e : InteractiveElement),
      wellFormedSnapshot pd →
      hd.elementIndex = JSValue.jnum (JSNum.val (i : ℚ)) →
      pd.interactiveElements[i]? = some e →
      resolveHighlightTarget hd pd =
        some { selector := e.selector,
               description :=
                 if rhtDescription0 hd = "" then
                   jsOr e.text (jsOr e.ariaLabel "Recommended action")
                 else rhtDescription0 hd }) ∧
    (∀ (pd : PageData) (hd : HighlightData) (txt : String),
      pd.interactiveElements.length = 10 →
      hd.elementIndex = JSValue.jnum (JSNum.val 99) →
      hd.selector = JSValue.undef →
      resolveTargetPipeline (some hd) pd txt = resolveFallbackHighlightTarget pd txt) := by
  constructor
  · intro pd hd i e wf hidx he
    have hq : toNumber hd.elementIndex = JSNum.val (i : ℚ) := by rw [hidx]; rfl
    have htn : ((i : ℚ)).num.toNat = i := by
      rw [Rat.num_natCast]
      simp
    have he' : pd.interactiveElements[((i : ℚ)).num.toNat]? = some e := by
      rw [htn]; exact he
    exact rht_index_result hd pd (i : ℚ) e hq (Rat.den_natCast i) (Nat.cast_nonneg i)
      he' (wf e (mem_of_getElemOpt he))
  · intro pd hd txt hlen hidx hsel
    have hhit : rhtIndexHit hd pd = none := by
      unfold rhtIndexHit
      rw [hidx]
      show (if (99 : ℚ).den = 1 ∧ 0 ≤ (99 : ℚ) ∧
          (99 : ℚ) < (pd.interactiveElements.length : ℚ) then
          pd.interactiveElements[(99 : ℚ).num.toNat]? else none) = none
      have hc : ¬((99 : ℚ).den = 1 ∧ 0 ≤ (99 : ℚ) ∧
          (99 : ℚ) < (pd.interactiveElements.length : ℚ)) := by
        rw [hlen]
        rintro ⟨-, -, hlt⟩
        norm_num at hlt
      rw [if_neg hc]
    have hs1 : rhtSelector1 hd pd = "" := by
      unfold rhtSelector1
      rw [hhit]
    have hs2 : rhtSelector2 hd pd = "" := by
      unfold rhtSelector2
      rw [hs1, if_pos rfl, hsel]
    have hrn : resolveHighlightTarget hd pd = none := (rht_none_iff hd pd).mpr hs2
    simp only [resolveTargetPipeline, hrn]

theorem c6_index_paths_witness :
    resolveHighlightTarget
        { elementIndex := JSValue.jnum (JSNum.val 3), selector := JSValue.undef,
          description := JSValue.undef } pdTen =
        some { selector := "#e3", description := "Go" } ∧
      resolveTargetPipeline
        (some { elementIndex := JSValue.jnum (JSNum.val 99), selector := JSValue.undef,
                description := JSValue.undef }) pdTen "x" =
        resolveFallbackHighlightTarget pdTen "x" := by
  constructor
  · have h := c6_index_paths.1 pdTen
      { elementIndex := JSValue.jnum (JSNum.val 3), selector := JSValue.undef,
        description := JSValue.undef } 3 { defaultElem with selector := "#e3" }
      (by show ∀ e ∈ pdTen.interactiveElements, e.selector ≠ ""; decide)
      (by decide) (by decide)
    rw [h]
    decide
  · exact c6_index_paths.2 pdTen
      { elementIndex := JSValue.jnum (JSNum.val 99), selector := JSValue.undef,
        description := JSValue.undef } "x" (by decide) (by decide) rfl

/- ### C9: JS numeric coercion of elementIndex -/

/-- C9: `Number(...)` is applied to `elementIndex` before the range
check, so null, the empty string, booleans and numeric strings coerce to
in-range indexes and take the primary path (regardless of any explicit
selector field, hence taking precedence over it), while values coercing
to NaN or to a non-integer behave exactly as an absent index and fall
through to the selector path. -/
theorem c9_elementIndex_coercion (pd : PageData) (hd : HighlightData)
    (e0 e1 : InteractiveElement) (wf : wellFormedSnapshot pd)
    (h0 : pd.interactiveElements[0]? = some e0)
    (h1 : pd.interactiveElements[1]? = some e1) :
    ((hd.elementIndex = JSValue.jnull ∨ hd.elementIndex = JSValue.jstr "" ∨
        hd.elementIndex = JSValue.jbool false →
      Option.map ResolvedTarget.selector (resolveHighlightTarget hd pd) =
        some e0.selector) ∧
     (hd.elementIndex = JSValue.jbool true →
      Option.map ResolvedTarget.selector (resolveHighlightTarget hd pd) =
        some e1.selector) ∧
     (∀ e3, hd.elementIndex = JSValue.jstr "3" →
      pd.interactiveElements[3]? = some e3 →
      Option.map ResolvedTarget.selector (resolveHighlightTarget hd pd) =
        some e3.selector) ∧
     (toNumber hd.elementIndex = JSNum.nan ∨
        (∃ q, toNumber hd.elementIndex = JSNum.val q ∧ q.den ≠ 1) →
      resolveHighlightTarget hd pd =
        resolveHighlightTarget { hd with elementIndex := JSValue.undef } pd)) := by
  refine ⟨?_, ?_, ?_, ?_⟩
  · intro hcase
    have hq : toNumber hd.elementIndex = JSNum.val 0 := by
      rcases hcase with h | h | h <;> rw [h] <;> decide
    have h0' : pd.interactiveElements[(0 : ℚ).num.toNat]? = some e0 := by
      rw [show (0 : ℚ).num.toNat = 0 from by decide]
      exact h0
    have hres := rht_index_result hd pd 0 e0 hq (by decide) (by norm_num) h0'
      (wf e0 (mem_of_getElemOpt h0))
    rw [hres]
    rfl
  · intro hcase
    have hq : toNumber hd.elementIndex = JSNum.val 1 := by rw [hcase]; rfl
    have h1' : pd.interactiveElements[(1 : ℚ).num.toNat]? = some e1 := by
      rw [show (1 : ℚ).num.toNat = 1 from by decide]
      exact h1
    have hres := rht_index_result hd pd 1 e1 hq (by decide) (by norm_num) h1'
      (wf e1 (mem_of_getElemOpt h1))
    rw [hres]
    rfl
  · intro e3 hcase h3
    have hq : toNumber hd.elementIndex = JSNum.val 3 := by rw [hcase]; decide
    have h3' : pd.interactiveElements[(3 : ℚ).num.toNat]? = some e3 := by
      rw [show (3 : ℚ).num.toNat = 3 from by decide]
      exact h3
    have hres := rht_index_result hd pd 3 e3 hq (by decide) (by norm_num) h3'
      (wf e3 (mem_of_getElemOpt h3))
    rw [hres]
    rfl
  · intro hcase
    have hhit1 : rhtIndexHit hd pd = none := by
      unfold rhtIndexHit
      rcases hcase with hnan | ⟨q, hq, hden⟩
      · rw [hnan]
      · rw [hq]
        show (if q.den = 1 ∧ 0 ≤ q ∧ q < (pd.interactiveElements.length : ℚ) then
            pd.interactiveElements[q.num.toNat]? else none) = none
        exact if_neg (fun hc => hden hc.1)
    have hhit2 : rhtIndexHit { hd with elementIndex := JSValue.undef } pd = none := by
      unfold rhtIndexHit
      rfl
    have hs1 : rhtSelector1 hd pd = rhtSelector1 { hd with elementIndex := JSValue.undef } pd := by
      unfold rhtSelector1
      rw [hhit1, hhit2]
    have hD : rhtDescription1 hd pd =
        rhtDescription1 { hd with elementIndex := JSValue.undef } pd := by
      unfold rhtDescription1
      rw [hhit1, hhit2]
      rfl
    have hs2 : rhtSelector2 hd pd = rhtSelector2 { hd with elementIndex := JSValue.undef } pd := by
      unfold rhtSelector2
      rw [hs1]
    unfold resolveHighlightTarget
    rw [hs2, hD]

theorem c9_elementIndex_coercion_witness :
    Option.map ResolvedTarget.selector (resolveHighlightTarget
        { elementIndex := JSValue.jnull, selector := JSValue.jstr "#explicit",
          description := JSValue.undef } pdTen) = some "#e0" ∧
      resolveHighlightTarget
        { elementIndex := JSValue.jstr "oops", selector := JSValue.jstr "#explicit",
          description := JSValue.undef } pdTen =
      resolveHighlightTarget
        { elementIndex := JSValue.undef, selector := JSValue.jstr "#explicit",
          description := JSValue.undef } pdTen := by
  constructor
  · exact (c9_elementIndex_coercion pdTen
      { elementIndex := JSValue.jnull, selector := JSValue.jstr "#explicit",
        description := JSValue.undef }
      { defaultElem with selector := "#e0" } { defaultElem with selector := "#e1" }
      (by show ∀ e ∈ pdTen.interactiveElements, e.selector ≠ ""; decide)
      (by decide) (by decide)).1 (Or.inl rfl)
  · exact (c9_elementIndex_coercion pdTen
      { elementIndex := JSValue.jstr "oops", selector := JSValue.jstr "#explicit",
        description := JSValue.undef }
      { defaultElem with selector := "#e0" } { defaultElem with selector := "#e1" }
      (by show ∀ e ∈ pdTen.interactiveElements, e.selector ≠ ""; decide)
      (by decide) (by decide)).2.2.2 (Or.inl (by decide))

/- ### C7: selector generator round-trip — infrastructure -/

theorem find?_eq_some_of_unique {α : Type} (l : List α) (pred : α → Bool) (a : α)
    (ha : a ∈ l) (hpa : pred a = true) (huniq : ∀ b ∈ l, pred b = true → b = a) :
    l.find? pred = some a := by
  induction l with
  | nil => cases ha
  | cons c rest ih =>
      by_cases hc : pred c = true
      · rw [List.find?_cons_of_pos _ hc]
        exact congrArg some (huniq c (List.mem_cons_self c rest) hc)
      · rw [List.find?_cons_of_neg _ (by simpa using hc)]
        rcases List.mem_cons.mp ha with rfl | ha'
        · exact absurd hpa hc
        · exact ih ha' (fun b hb hpb => huniq b (List.mem_cons_of_mem _ hb) hpb)

theorem eq_of_filter_length_one {α : Type} (l : List α) (pred : α → Bool)
    (hlen : (l.filter pred).length = 1) (a b : α) (ha : a ∈ l) (hpa : pred a = true)
    (hb : b ∈ l) (hpb : pred b = true) : b = a := by
  rcases List.length_eq_one.mp hlen with ⟨x, hx⟩
  have hax : a = x := by
    have hmem : a ∈ l.filter pred := List.mem_filter.mpr ⟨ha, hpa⟩
    rw [hx] at hmem
    exact List.mem_singleton.mp hmem
  have hbx : b = x := by
    have hmem : b ∈ l.filter pred := List.mem_filter.mpr ⟨hb, hpb⟩
    rw [hx] at hmem
    exact List.mem_singleton.mp hmem
  rw [hax, hbx]

theorem eq_of_nodup_filterMap {α β : Type} (f : α → Option β) (l : List α)
    (h : (l.filterMap f).Nodup) :
    ∀ a ∈ l, ∀ b ∈ l, ∀ s, f a = some s → f b = some s → a = b := by
  induction l with
  | nil => intro a ha; cases ha
  | cons c rest ih =>
      intro a ha b hb s hfa hfb
      rcases hv : f c with - | v
      · rw [List.filterMap_cons_none hv] at h
        rcases List.mem_cons.mp ha with rfl | ha'
        · rw [hfa] at hv; cases hv
        · rcases List.mem_cons.mp hb with rfl | hb'
          · rw [hfb] at hv; cases hv
          · exact ih h a ha' b hb' s hfa hfb
      · rw [List.filterMap_cons_some hv] at h
        have hnotmem := (List.nodup_cons.mp h).1
        have hrest := (List.nodup_cons.mp h).2
        rcases List.mem_cons.mp ha with rfl | ha'
        · rcases List.mem_cons.mp hb with rfl | hb'
          · rfl
          · exfalso
            apply hnotmem
            rw [hfa] at hv
            rw [← Option.some.inj hv]
            exact List.mem_filterMap.mpr ⟨b, hb', hfb⟩
        · rcases List.mem_cons.mp hb with rfl | hb'
          · exfalso
            apply hnotmem
            rw [hfb] at hv
            rw [← Option.some.inj hv]
            exact List.mem_filterMap.mpr ⟨a, ha', hfa⟩
          · exact ih hrest a ha' b hb' s hfa hfb

theorem mem_listPaths (cs : List DomTree) (i : ℕ) (q : List ℕ) :
    q ∈ listPaths cs i ↔
      ∃ j c r, cs[j]? = some c ∧ r ∈ allPaths c ∧ q = (i + j) :: r := by
  induction cs generalizing i with
  | nil =>
      simp [listPaths]
  | cons c rest ih =>
      rw [listPaths]
      rw [List.mem_append]
      constructor
      · rintro (hm | hm)
        · rcases List.mem_map.mp hm with ⟨r, hr, rfl⟩
          exact ⟨0, c, r, by simp, hr, by simp⟩
        · rcases (ih (i + 1)).mp hm with ⟨j, c', r, hj, hr, rfl⟩
          refine ⟨j + 1, c', r, by simpa using hj, hr, ?_⟩
          congr 1
          omega
      · rintro ⟨j, c', r, hj, hr, rfl⟩
        cases j with
        | zero =>
            left
            rw [List.getElem?_cons_zero] at hj
            injection hj with hj
            subst hj
            exact List.mem_map.mpr ⟨r, hr, by simp⟩
        | succ j' =>
            right
            refine (ih (i + 1)).mpr ⟨j', c', r, by simpa using hj, hr, ?_⟩
            congr 1
            omega

theorem mem_allPaths (p : List ℕ) (t : DomTree) :
    p ∈ allPaths t ↔ (nodeAt t p).isSome := by
  induction p generalizing t with
  | nil =>
      cases t with
      | node d cs => simp [allPaths, nodeAt]
  | cons k r ih =>
      cases t with
      | node d cs =>
          rw [allPaths]
          constructor
          · intro hm
            rcases List.mem_cons.mp hm with h | h
            · cases h
            · rcases (mem_listPaths cs 0 (k :: r)).mp h with ⟨j, c, r', hj, hr', heq⟩
              injection heq with h1 h2
              subst h2
              rw [nodeAt]
              have hj' : cs[k]? = some c := by
                rw [h1]
                simpa using hj
              rw [hj']
              exact (ih c).mp hr' 
          · intro hv
            rw [nodeAt] at hv
            rcases hc : cs[k]? with - | c
            · rw [hc] at hv; cases hv
            · rw [hc] at hv
              refine List.mem_cons_of_mem _ ((mem_listPaths cs 0 (k :: r)).mpr
                ⟨k, c, r, hc, (ih c).mpr hv, by simp⟩)

theorem matchesSel_isSome (root : DomTree) (q : List ℕ) (sel : Sel)
    (h : matchesSel root q sel = true) : (nodeAt root q).isSome := by
  cases hn : nodeAt root q with
  | some t => rfl
  | none =>
      exfalso
      cases sel <;> simp [matchesSel, hn] at h

theorem matches_byId_iff (root : DomTree) (q : List ℕ) (s : String) :
    matchesSel root q (Sel.byId s) = true ↔
      ∃ t, nodeAt root q = some t ∧ t.dataOf.idAttr = s := by
  cases hn : nodeAt root q with
  | none => simp [matchesSel, hn]
  | some t => simp [matchesSel, hn]

theorem matches_childNth_iff (root : DomTree) (q : List ℕ) (psel : Sel)
    (tag : String) (k : ℕ) :
    matchesSel root q (Sel.childNth psel tag k) = true ↔
      ∃ t, nodeAt root q = some t ∧ t.dataOf.tag = tag ∧
        (∃ j, q.getLast? = some j ∧ j + 1 = k) ∧
        matchesSel root q.dropLast psel = true := by
  cases hn : nodeAt root q with
  | none => simp [matchesSel, hn]
  | some t =>
      cases hl : q.getLast? with
      | none => simp [matchesSel, hn, hl]
      | some j => simp [matchesSel, hn, hl, and_assoc]

theorem unique_of_count_one (root : DomTree) (sel : Sel) (p : List ℕ)
    (hc : countMatches root sel = 1) (hval : (nodeAt root p).isSome)
    (hp : matchesSel root p sel = true) (q : List ℕ) :
    matchesSel root q sel = true ↔ q = p := by
  unfold countMatches at hc
  constructor
  · intro hq
    exact eq_of_filter_length_one (allPaths root) (fun x => matchesSel root x sel) hc p q
      ((mem_allPaths p root).mpr hval) hp
      ((mem_allPaths q root).mpr (matchesSel_isSome root q sel hq)) hq
  · rintro rfl
    exact hp

theorem id_unique (root : DomTree) (wfid : (docIds root).Nodup)
    (p1 p2 : List ℕ) (t1 t2 : DomTree)
    (h1 : nodeAt root p1 = some t1) (h2 : nodeAt root p2 = some t2)
    (hne : t1.dataOf.idAttr ≠ "") (heq : t2.dataOf.idAttr = t1.dataOf.idAttr) :
    p1 = p2 := by
  refine eq_of_nodup_filterMap _ _ wfid p1 ?_ p2 ?_ t1.dataOf.idAttr ?_ ?_
  · exact (mem_allPaths p1 root).mpr (by rw [h1]; rfl)
  · exact (mem_allPaths p2 root).mpr (by rw [h2]; rfl)
  · show (match nodeAt root p1 with
      | some t => if t.dataOf.idAttr = "" then none else some t.dataOf.idAttr
      | none => none) = some t1.dataOf.idAttr
    rw [h1]
    simp [hne]
  · show (match nodeAt root p2 with
      | some t => if t.dataOf.idAttr = "" then none else some t.dataOf.idAttr
      | none => none) = some t1.dataOf.idAttr
    rw [h2]
    simp only [heq]
    simp [hne]

theorem nodeAt_append (t : DomTree) (p r : List ℕ) :
    nodeAt t (p ++ r) =
      match nodeAt t p with
      | some c => nodeAt c r
      | none => none := by
  induction p generalizing t with
  | nil => simp [nodeAt]
  | cons i p' ih =>
      cases t with
      | node d cs =>
          rw [List.cons_append, nodeAt]
          cases hc : cs[i]? with
          | none => simp [nodeAt, hc]
          | some c => simp [nodeAt, hc, ih c]

theorem isSome_nodeAt_dropLast (root : DomTree) (p : List ℕ)
    (h : (nodeAt root p).isSome) : (nodeAt root p.dropLast).isSome := by
  by_cases hp : p = []
  · subst hp
    simpa using h
  · have hsplit : p.dropLast ++ [p.getLast hp] = p := List.dropLast_append_getLast hp
    rw [← hsplit, nodeAt_append] at h
    cases hd : nodeAt root p.dropLast with
    | none => rw [hd] at h; simp at h
    | some c => rfl

theorem genSelFuel_id (fuel : ℕ) (root : DomTree) (p : List ℕ) (t : DomTree)
    (hval : nodeAt root p = some t) (hid : t.dataOf.idAttr ≠ "") :
    generateSelectorFuel fuel root p = Sel.byId t.dataOf.idAttr := by
  rw [generateSelectorFuel.eq_1, hval]
  simp [hid]

theorem genSelFuel_class (fuel : ℕ) (root : DomTree) (p : List ℕ) (t : DomTree)
    (hval : nodeAt root p = some t) (hid : t.dataOf.idAttr = "")
    (hcls : t.dataOf.classes ≠ [])
    (hcnt : countMatches root (Sel.byTagClasses t.dataOf.tag (t.dataOf.classes.take 2)) = 1) :
    generateSelectorFuel fuel root p =
      Sel.byTagClasses t.dataOf.tag (t.dataOf.classes.take 2) := by
  rw [generateSelectorFuel.eq_1, hval]
  simp [hid, hcls, hcnt]

theorem genSelFuel_data (fuel : ℕ) (root : DomTree) (p : List ℕ) (t : DomTree)
    (av : String × String)
    (hval : nodeAt root p = some t) (hid : t.dataOf.idAttr = "")
    (hcsel : t.dataOf.classes = [] ∨
      countMatches root (Sel.byTagClasses t.dataOf.tag (t.dataOf.classes.take 2)) ≠ 1)
    (hfind : t.dataOf.dataAttrs.find? (fun av =>
        av.2 ≠ "" && countMatches root (Sel.byTagData t.dataOf.tag av.1 av.2) = 1) =
      some av) :
    generateSelectorFuel fuel root p = Sel.byTagData t.dataOf.tag av.1 av.2 := by
  rw [generateSelectorFuel.eq_1, hval]
  simp only [ne_eq, decide_not] at hfind
  rcases hcsel with hcls | hcnt
  · simp [hid, hcls, hfind]
  · by_cases hcls : t.dataOf.classes = []
    · simp [hid, hcls, hfind]
    · simp [hid, hcls, hcnt, hfind]

theorem genSelFuel_rootTag (fuel : ℕ) (root : DomTree) (t : DomTree)
    (hval : nodeAt root [] = some t) (hid : t.dataOf.idAttr = "")
    (hcsel : t.dataOf.classes = [] ∨
      countMatches root (Sel.byTagClasses t.dataOf.tag (t.dataOf.classes.take 2)) ≠ 1)
    (hfind : t.dataOf.dataAttrs.find? (fun av =>
        av.2 ≠ "" && countMatches root (Sel.byTagData t.dataOf.tag av.1 av.2) = 1) =
      none) :
    generateSelectorFuel fuel root [] = Sel.byTag t.dataOf.tag := by
  rw [generateSelectorFuel.eq_1, hval]
  simp only [ne_eq, decide_not] at hfind
  rcases hcsel with hcls | hcnt
  · simp [hid, hcls, hfind]
  · by_cases hcls : t.dataOf.classes = []
    · simp [hid, hcls, hfind]
    · simp [hid, hcls, hcnt, hfind]

theorem genSelFuel_child (fuel : ℕ) (root : DomTree) (p : List ℕ) (t : DomTree)
    (hval : nodeAt root p = some t) (hp : p ≠ []) (hid : t.dataOf.idAttr = "")
    (hcsel : t.dataOf.classes = [] ∨
      countMatches root (Sel.byTagClasses t.dataOf.tag (t.dataOf.classes.take 2)) ≠ 1)
    (hfind : t.dataOf.dataAttrs.find? (fun av =>
        av.2 ≠ "" && countMatches root (Sel.byTagData t.dataOf.tag av.1 av.2) = 1) =
      none) :
    generateSelectorFuel (fuel + 1) root p =
      Sel.childNth (generateSelectorFuel fuel root p.dropLast) t.dataOf.tag
        (p.getLast hp + 1) := by
  rw [generateSelectorFuel.eq_1, hval]
  simp only [ne_eq, decide_not] at hfind
  rcases hcsel with hcls | hcnt
  · simp [hid, hcls, hfind, hp]
  · by_cases hcls : t.dataOf.classes = []
    · simp [hid, hcls, hfind, hp]
    · simp [hid, hcls, hcnt, hfind, hp]

theorem genSel_step (root : DomTree) (wfid : (docIds root).Nodup)
    (wftag : countMatches root (Sel.byTag root.dataOf.tag) = 1)
    (p : List ℕ) (t : DomTree) (hval : nodeAt root p = some t)
    (IH : p ≠ [] → ∀ q', matchesSel root q' (generateSelector root p.dropLast) = true ↔
      q' = p.dropLast) :
    ∀ q, matchesSel root q (generateSelector root p) = true ↔ q = p := by
  intro q
  have hwrap : generateSelector root p = generateSelectorFuel p.length root p := rfl
  by_cases hid : t.dataOf.idAttr = ""
  case neg =>
    rw [hwrap, genSelFuel_id p.length root p t hval hid, matches_byId_iff]
    constructor
    · rintro ⟨t', hq, hid'⟩
      exact id_unique root wfid q p t' t hq hval (hid' ▸ hid) hid'.symm
    · rintro rfl
      exact ⟨t, hval, rfl⟩
  case pos =>
  by_cases hclass : t.dataOf.classes ≠ [] ∧
      countMatches root (Sel.byTagClasses t.dataOf.tag (t.dataOf.classes.take 2)) = 1
  · rw [hwrap, genSelFuel_class p.length root p t hval hid hclass.1 hclass.2]
    refine unique_of_count_one root _ p hclass.2 (by rw [hval]; rfl) ?_ q
    cases htv : nodeAt root p with
    | none => rw [htv] at hval; cases hval
    | some t0 =>
        rw [htv] at hval
        injection hval with hval
        subst hval
        simp only [matchesSel, htv]
        refine (Bool.and_eq_true _ _).mpr ⟨by simp, ?_⟩
        rw [List.all_eq_true]
        intro c hc
        simpa using List.mem_of_mem_take hc
  · have hcsel : t.dataOf.classes = [] ∨
        countMatches root (Sel.byTagClasses t.dataOf.tag (t.dataOf.classes.take 2)) ≠ 1 := by
      by_cases h1 : t.dataOf.classes = []
      · exact Or.inl h1
      · refine Or.inr (fun h2 => hclass ⟨h1, h2⟩)
    cases hfind : t.dataOf.dataAttrs.find? (fun av =>
        av.2 ≠ "" && countMatches root (Sel.byTagData t.dataOf.tag av.1 av.2) = 1) with
    | some av =>
        rw [hwrap, genSelFuel_data p.length root p t av hval hid hcsel hfind]
        have hpred := List.find?_some hfind
        have hmem := List.mem_of_find?_eq_some hfind
        have hcnt : countMatches root (Sel.byTagData t.dataOf.tag av.1 av.2) = 1 := by
          rcases (Bool.and_eq_true _ _).mp hpred with ⟨-, h2⟩
          simpa using h2
        refine unique_of_count_one root _ p hcnt (by rw [hval]; rfl) ?_ q
        simp only [matchesSel, hval]
        refine (Bool.and_eq_true _ _).mpr ⟨by simp, ?_⟩
        simpa using hmem
    | none =>
        by_cases hp : p = []
        · subst hp
          have h0 : nodeAt root [] = some root := by
            cases root with
            | node d cs => rfl
          have hroot : t = root := by
            rw [h0] at hval
            exact (Option.some.inj hval).symm
          rw [hwrap, genSelFuel_rootTag ([] : List ℕ).length root t hval hid hcsel hfind, hroot]
          refine unique_of_count_one root _ [] wftag (by rw [h0]; rfl) ?_ q
          simp only [matchesSel, h0]
          simp
        · cases hL : p.length with
          | zero => exact absurd (List.eq_nil_of_length_eq_zero hL) hp
          | succ m =>
              have hgen : generateSelector root p =
                  Sel.childNth (generateSelector root p.dropLast) t.dataOf.tag
                    (p.getLast hp + 1) := by
                rw [hwrap, hL, genSelFuel_child m root p t hval hp hid hcsel hfind]
                have hdl : p.dropLast.length = m := by
                  rw [List.length_dropLast, hL]
                  omega
                rw [show generateSelector root p.dropLast =
                  generateSelectorFuel p.dropLast.length root p.dropLast from rfl, hdl]
              rw [hgen, matches_childNth_iff]
              constructor
              · rintro ⟨t', hq, htag, ⟨j, hlast, hjk⟩, hpmatch⟩
                have hdq : q.dropLast = p.dropLast := (IH hp q.dropLast).mp hpmatch
                have hqne : q ≠ [] := by
                  intro hqnil
                  subst hqnil
                  simp at hlast
                have hj : j = p.getLast hp := by omega
                have hqlast : q.getLast hqne = j := by
                  have := List.getLast?_eq_getLast q hqne
                  rw [this] at hlast
                  injection hlast with hlast
                calc q = q.dropLast ++ [q.getLast hqne] :=
                      (List.dropLast_append_getLast hqne).symm
                  _ = p.dropLast ++ [p.getLast hp] := by rw [hdq, hqlast, hj]
                  _ = p := List.dropLast_append_getLast hp
              · intro hqp
                rw [hqp]
                exact ⟨t, hval, rfl, ⟨p.getLast hp, List.getLast?_eq_getLast p hp, rfl⟩,
                  (IH hp p.dropLast).mpr rfl⟩

theorem genSel_unique_aux (root : DomTree) (wf : wellFormedDoc root) :
    ∀ (N : ℕ) (p : List ℕ) (t : DomTree), p.length ≤ N → nodeAt root p = some t →
      ∀ q, matchesSel root q (generateSelector root p) = true ↔ q = p := by
  intro N
  induction N with
  | zero =>
      intro p t hlen hval q
      have hp : p = [] := by
        cases p with
        | nil => rfl
        | cons a b => simp at hlen
      subst hp
      exact genSel_step root wf.1 wf.2 [] t hval (fun hne => absurd rfl hne) q
  | succ N ih =>
      intro p t hlen hval q
      refine genSel_step root wf.1 wf.2 p t hval (fun hp q' => ?_) q
      have hvald : (nodeAt root p.dropLast).isSome :=
        isSome_nodeAt_dropLast root p (by rw [hval]; rfl)
      obtain ⟨t', ht'⟩ := Option.isSome_iff_exists.mp hvald
      exact ih p.dropLast t' (by rw [List.length_dropLast]; omega) ht' q'

/-- C7 counterexample: in a rendered document with two nodes carrying the
same `id` (no visibility styling, so both are visible), the generator
emits `#dup` for the second node but `querySelector` resolves `#dup` to
the first, so the round-trip fails as stated. -/
theorem c7_selector_roundtrip_counterexample :
    (nodeAt dupDoc [1]).isSome ∧
      generateSelector dupDoc [1] = Sel.byId "dup" ∧
      querySelectorModel dupDoc (generateSelector dupDoc [1]) = some [0] ∧
      ([0] : List ℕ) ≠ [1] := by
  decide

/-- C7 (amended): for documents whose `id` values are unique and whose
root tag name occurs only at the root, the generated selector (priority:
id; tag + up to two classes if unique; unique data attribute; recursive
`parent > tag:nth-child(k)` terminating at the parentless root's bare
tag) matches exactly the originating node, so re-querying returns it. -/
theorem c7_selector_roundtrip (root : DomTree) (p : List ℕ)
    (wf : wellFormedDoc root) (hval : (nodeAt root p).isSome) :
    querySelectorModel root (generateSelector root p) = some p := by
  obtain ⟨t, ht⟩ := Option.isSome_iff_exists.mp hval
  have hiff := genSel_unique_aux root wf p.length p t le_rfl ht
  unfold querySelectorModel
  exact find?_eq_some_of_unique (allPaths root) _ p ((mem_allPaths p root).mpr hval)
    ((hiff p).mpr rfl) (fun b hb hpb => (hiff b).mp hpb)

theorem c7_selector_roundtrip_witness :
    querySelectorModel wDoc (generateSelector wDoc [0, 1]) = some [0, 1] :=
  c7_selector_roundtrip wDoc [0, 1] (by decide) (by decide)
